import Mathlib

/-
Verification development for the etl-io repository (src/etl_io.py).

The Python source is shallowly embedded: pandas dataframes become lists of
typed rows, the Access database becomes an in-memory record of relations,
printed-and-swallowed errors become an absent (`Option`) result, and Python
exceptions that escape a method become the `Except.error` case of `PyErr`.
In-place mutation of a caller-supplied list (the `cipcode` argument of
`school_query`) is modelled by returning the final state of that list
alongside the query result.
-/

namespace EtlIO

/-- Python exceptions that can escape a method in the modelled code paths. -/
inductive PyErr where
  | attributeError (msg : String)
  | valueError (msg : String)
  | typeError (msg : String)
  | nameError (msg : String)
  | keyError (msg : String)
deriving DecidableEq, Repr

/-! ## IPEDS data model

`C2019_A` rows (the award relation): institution id, major number,
classification (CIP) code, and the demographic value columns. The value
columns are kept as an association list from column name to value; columns
absent from a concrete test relation read as 0 (the real relation always has
the full fixed schema). -/

/-- One row of the `C2019_A` award relation. -/
structure AwardRow where
  unitid : Nat
  majornum : Nat
  cipcode : String
  cells : List (String × Int)
deriving DecidableEq, Repr

/-- One row of the `HD2019` institution-directory relation. -/
structure HDRow where
  unitid : Nat
  fips : Nat
  stabbr : String
  countycd : Nat
  countynm : String
  zip : Nat
deriving DecidableEq, Repr

/-- The backing Access database plus the loaded metadata dictionaries:
`metadata` is `valuesets19` grouped by variable name (code -> label), and
`varnames` is the `vartable19` rename map for the `C2019_A` table
(`varnames['C2019_A']` in the source). -/
structure IpedsDB where
  c2019a : List AwardRow
  hd2019 : List HDRow
  metadata : List (String × List (String × String))
  varnames : List (String × String)
deriving DecidableEq, Repr

/-- A geography filter argument of `get_unitid`: Python's duck-typed
"absent, scalar, or sequence" parameter. -/
inductive GeoFilter where
  | absent
  | scalar (n : Nat)
  | many (ns : List Nat)
deriving DecidableEq, Repr

/-- Whether a row value satisfies the rendered `IN (...)` clause built from a
geography filter (an absent filter contributes no clause). -/
def matchesFilter (g : GeoFilter) (v : Nat) : Bool :=
  match g with
  | .absent => true
  | .scalar n => v == n
  | .many ns => ns.contains v

/-- A resolved institution row as returned by `get_unitid`: the selected
columns of `HD2019`, after the optional `clean_geography` in-place rewrite
(`FIPS` becomes the state abbreviation, `COUNTYCD` becomes "County, ST"). -/
structure RHDRow where
  unitid : Nat
  fips : String
  stabbr : String
  countycd : String
  countynm : String
  zip : String
deriving DecidableEq, Repr

/-- The value `get_unitid` returns: the empty tuple `()` on the
all-filters-absent fast path, or the queried table. -/
inductive GeoResult where
  | emptyTuple
  | table (rows : List RHDRow)
deriving DecidableEq, Repr

/-- `IPEDSHandler.get_unitid`. The second component counts the queries issued
against the backing store (the single `select` on `HD2019`, when reached). -/
def get_unitid (db : IpedsDB) (state_fips county_fips zipcode : GeoFilter)
    (clean_geography : Bool) : GeoResult × Nat :=
  if state_fips = .absent ∧ county_fips = .absent ∧ zipcode = .absent then
    (.emptyTuple, 0)
  else
    let rows := db.hd2019.filter fun h =>
      matchesFilter state_fips h.fips && matchesFilter county_fips h.countycd
        && matchesFilter zipcode h.zip
    let out := rows.map fun h =>
      if clean_geography then
        { unitid := h.unitid, fips := h.stabbr, stabbr := h.stabbr,
          countycd := h.countynm ++ ", " ++ h.stabbr, countynm := h.countynm,
          zip := toString h.zip }
      else
        { unitid := h.unitid, fips := toString h.fips, stabbr := h.stabbr,
          countycd := toString h.countycd, countynm := h.countynm,
          zip := toString h.zip }
    (.table out, 1)

/-! ## school_query -/

/-- The `cip_level` argument: Python compares it against the int literals
6, 4, 2 and the strings "all", "total". -/
inductive CipLevel where
  | i (n : Int)
  | s (str : String)
deriving DecidableEq, Repr

/-- The keyword arguments of `school_query` other than `cip_level` (which is
accepted by the source but never read inside `school_query` itself, so it is
passed as a separate argument below). -/
structure SQArgs where
  state_fips : GeoFilter
  county_fips : GeoFilter
  zipcode : GeoFilter
  cipcode : List String
  majornum : Nat
  unitid : List Nat
  how : String
  rename : Bool
  label : Bool
  keep_geography : Option String
  clean_geography : Bool
deriving DecidableEq, Repr

/-- The source defaults of `school_query` / `awards`. -/
def defaultSQArgs : SQArgs :=
  { state_fips := .absent, county_fips := .absent, zipcode := .absent,
    cipcode := [], majornum := 1, unitid := [], how := "total",
    rename := true, label := false, keep_geography := none,
    clean_geography := false }

/-- The value columns chosen by the `how` breakdown; `none` models the
"not a valid option" print-and-return-None branch. -/
def breakdownCols (how : String) : Option (List String) :=
  if how = "total" then some ["CTOTALT"]
  else if how = "race" then
    some ["CAIANT", "CASIAT", "CBKAAT", "CHISPT", "CNHPIT", "CUNKNT",
          "C2MORT", "CWHITT"]
  else if how = "sex" then some ["CTOTALM", "CTOTALW"]
  else if how = "race_sex" then
    some ["CAIANM", "CASIAM", "CBKAAM", "CHISPM", "CNHPIM", "CUNKNM",
          "C2MORM", "CWHITM", "CAIANF", "CASIAF", "CBKAAF", "CHISPF",
          "CNHPIF", "CUNKNF", "C2MORF", "CWHITF"]
  else none

/-- The columns of the `utd` dataframe; selecting `keep_geography` from it
succeeds exactly when the name is one of these. -/
def validGeoCols : List String :=
  ["UNITID", "FIPS", "STABBR", "COUNTYCD", "COUNTYNM", "ZIP"]

/-- The geography-resolution prefix of `school_query`: `none` models both
print-and-return-None early exits ("no colleges found in search area" and an
invalid `keep_geography` column); otherwise it yields the institution-id
restriction together with the resolved table kept for the later
`keep_geography` merge. -/
def resolveGeo (db : IpedsDB) (a : SQArgs) :
    Option (List Nat × Option (List RHDRow)) :=
  if a.state_fips = .absent ∧ a.county_fips = .absent ∧ a.zipcode = .absent then
    some (a.unitid, none)
  else
    let utd :=
      match (get_unitid db a.state_fips a.county_fips a.zipcode
          a.clean_geography).1 with
      | .emptyTuple => []
      | .table rs => rs
    if utd = [] then none
    else
      match a.keep_geography with
      | some kg =>
          if validGeoCols.contains kg then some (utd.map (·.unitid), some utd)
          else none
      | none => some (utd.map (·.unitid), some utd)

/-- A row of the school-level table built by `school_query`: `UNITID`,
`CIPCODE`, the chosen value columns, and the optional merged geography
column. -/
structure SQRow where
  unitid : Nat
  cipcode : String
  vals : List Int
  geo : Option String
deriving DecidableEq, Repr

/-- The `select` on `C2019_A` issued by `school_query`: rows with the given
major number, restricted to the institution-id list when it is non-empty,
projected to the chosen value columns. -/
def selectAwards (db : IpedsDB) (majornum : Nat) (ids : List Nat)
    (valueCols : List String) : List SQRow :=
  (db.c2019a.filter fun r =>
      r.majornum == majornum && (ids.isEmpty || ids.contains r.unitid)).map
    fun r =>
      { unitid := r.unitid, cipcode := r.cipcode,
        vals := valueCols.map (fun c => ((r.cells.lookup c).getD 0)),
        geo := none }

/-- Python `str.split('.')` on the character list of a string: splitting on
a single-character separator, always yielding at least one (possibly empty)
fragment. -/
def splitDot : List Char → List (List Char)
  | [] => [[]]
  | c :: t =>
    if c = '.' then [] :: splitDot t
    else
      match splitDot t with
      | [] => [[c]]
      | p :: ps => (c :: p) :: ps

/-- Decimal value of a digit fragment, as Python `int()` computes it. -/
def pyIntVal (l : List Char) : Nat :=
  l.foldl (fun a c => 10 * a + (c.toNat - 48)) 0

/-- Python `int()` on a rendered code fragment: defined on non-empty digit
strings, a `ValueError` (`none`) otherwise. -/
def pyInt (l : List Char) : Option Nat :=
  if !l.isEmpty && l.all Char.isDigit then some (pyIntVal l)
  else none

/-- Python `'\x7b:>02d\x7d'.format n`: decimal digits zero-padded to width
at least 2. -/
def fmt02 (n : Nat) : String :=
  if n < 10 then "0" ++ Nat.repr n else Nat.repr n

/-- One step of the classification-code normalization loop of
`school_query`: `front` is the zero-padded integer part before the first
dot, `back` reattaches the fragment after the first dot (the `IndexError`
branch yields an empty `back`); a non-numeric integer part raises
`ValueError`. -/
def normalizeCip (s : String) : Except PyErr String :=
  match splitDot s.data with
  | [] => .error (.valueError s)
  | front :: rest =>
    match pyInt front with
    | none => .error (.valueError (String.mk front))
    | some n =>
      let back : List Char :=
        match rest with
        | b :: _ => '.' :: b
        | [] => []
      .ok (String.mk ((fmt02 n).data ++ back))

/-- The whole normalization loop: Python mutates `cipcode[i]` entry by entry
and raises at the first bad entry. -/
def normList (cip : List String) : Except PyErr (List String) :=
  cip.mapM normalizeCip

/-- The `if cipcode != []` block of `school_query`: normalize the list
in place, then keep the rows whose code is in the normalized set. The
returned list is the final state of the caller-supplied `cipcode` list. -/
def applyCipFilter (cip : List String) (awd : List SQRow) :
    Except PyErr (List SQRow × List String) :=
  if cip.isEmpty then .ok (awd, cip)
  else
    match normList cip with
    | .error e => .error e
    | .ok normed =>
        .ok (awd.filter (fun r => normed.contains r.cipcode), normed)

/-- Rendering of the selected geography column of a resolved institution
row (`geog = utd[['UNITID', keep_geography]]`). -/
def geoVal (h : RHDRow) (kg : String) : String :=
  if kg = "UNITID" then toString h.unitid
  else if kg = "FIPS" then h.fips
  else if kg = "STABBR" then h.stabbr
  else if kg = "COUNTYCD" then h.countycd
  else if kg = "COUNTYNM" then h.countynm
  else if kg = "ZIP" then h.zip
  else ""

/-- `awd.merge(geog, on='UNITID')`: inner merge, left-frame order. -/
def mergeGeo (rows : List SQRow) (utd : List RHDRow) (kg : String) :
    List SQRow :=
  rows.flatMap fun r =>
    (utd.filter (fun h => h.unitid == r.unitid)).map fun h =>
      { r with geo := some (geoVal h kg) }

/-- `IPEDSHandler.school_query`. The result pairs the returned table
(`none` = printed message and `return None`) with the final state of the
caller-supplied `cipcode` list; `cl` is the `cip_level` parameter, accepted
but never used by the source body. An exception escaping the body is
`Except.error`: the `NameError` arm models the reference to the local
`geog`, which is never assigned when no geography filter was given. -/
def school_query (db : IpedsDB) (cl : CipLevel) (a : SQArgs) :
    Except PyErr (Option (List SQRow) × List String) :=
  match resolveGeo db a with
  | none => .ok (none, a.cipcode)
  | some (ids, geoSrc) =>
    match breakdownCols a.how with
    | none => .ok (none, a.cipcode)
    | some valueCols =>
      let awd := selectAwards db a.majornum ids valueCols
      match applyCipFilter a.cipcode awd with
      | .error e => .error e
      | .ok (awd2, cips) =>
        match a.keep_geography with
        | none => .ok (some awd2, cips)
        | some kg =>
          match geoSrc with
          | some utd => .ok (some (mergeGeo awd2 utd kg), cips)
          | none => .error (.nameError "geog")

/-! ## awards / programs / schools -/

/-- Byte-wise lexicographic comparison of strings, the order pandas uses
when sorting group keys. -/
def cmpChars : List Char → List Char → Ordering
  | [], [] => .eq
  | [], _ :: _ => .lt
  | _ :: _, [] => .gt
  | a :: as, b :: bs =>
    match compare a.toNat b.toNat with
    | .eq => cmpChars as bs
    | o => o

/-- Comparison of strings via `cmpChars`. -/
def cmpStr (s t : String) : Ordering :=
  cmpChars s.data t.data

/-- Comparison of pandas group keys `(geography value, classification
code)`; a missing geography component reads as the empty string. -/
def cmpKey (k l : Option String × String) : Ordering :=
  match cmpStr (k.1.getD "") (l.1.getD "") with
  | .eq => cmpStr k.2 l.2
  | o => o

/-- Ordered duplicate-free insertion of a group key. -/
def insertKey (k : Option String × String) :
    List (Option String × String) → List (Option String × String)
  | [] => [k]
  | l :: t =>
    match cmpKey k l with
    | .lt => k :: l :: t
    | .eq => l :: t
    | .gt => l :: insertKey k t

/-- The sorted distinct group keys of a school-level table, as produced by
`groupby('CIPCODE')` (geography component `none` throughout) or
`groupby([keep_geography, 'CIPCODE'])`. -/
def sortedKeys (rows : List SQRow) : List (Option String × String) :=
  rows.foldl (fun acc r => insertKey (r.geo, r.cipcode) acc) []

/-- A row of an aggregated table: optional geography key, classification
code, optional `CIPNAME` label column, and the summed (or counted) value
columns. -/
structure AggRow where
  geo : Option String
  cipcode : String
  name : Option String
  vals : List Int
deriving DecidableEq, Repr

/-- An aggregated table with its column names. -/
structure AggFrame where
  cols : List String
  rows : List AggRow
deriving DecidableEq, Repr

/-- Component-wise sum of the value columns of a group (`groupby(...).sum()`
over `n` numeric columns). -/
def sumVals (n : Nat) (vss : List (List Int)) : List Int :=
  vss.foldl (fun acc vs => acc.zipWith (· + ·) vs) (List.replicate n 0)

/-- `groupby` + `sum` + `reset_index` of `awards`: one output row per
distinct key, in key order, value columns summed. -/
def groupAgg (rows : List SQRow) (n : Nat) : List AggRow :=
  (sortedKeys rows).map fun k =>
    { geo := k.1, cipcode := k.2, name := none,
      vals := sumVals n ((rows.filter
        (fun r => r.geo == k.1 && r.cipcode == k.2)).map (·.vals)) }

/-- `groupby(...)['UNITID'].count()` of `programs`: one output row per
distinct key with the group row count in the single `PROG_COUNT` column. -/
def groupCount (rows : List SQRow) : List AggRow :=
  (sortedKeys rows).map fun k =>
    { geo := k.1, cipcode := k.2, name := none,
      vals := [Int.ofNat ((rows.filter
        (fun r => r.geo == k.1 && r.cipcode == k.2)).length)] }

/-- The optional `label` step shared by `awards` and `programs`:
`awd['CIPNAME'] = awd['CIPCODE'].replace(self.metadata['CIPCODE'])`.
A missing `CIPCODE` entry in the metadata dictionary is an uncaught
`KeyError`. -/
def addLabel (db : IpedsDB) (label : Bool) (rows : List AggRow) :
    Except PyErr (List AggRow) :=
  if label then
    match db.metadata.lookup "CIPCODE" with
    | none => .error (.keyError "CIPCODE")
    | some m =>
      .ok (rows.map fun r =>
        { r with name := some ((m.lookup r.cipcode).getD r.cipcode) })
  else .ok rows

/-- Column names of an aggregated frame before the final clean:
geography key first (when kept), then `CIPCODE`, the value columns, and the
appended `CIPNAME` when labelled. -/
def aggCols (a : SQArgs) (valueCols : List String) : List String :=
  (match a.keep_geography with | some g => [g] | none => [])
    ++ ["CIPCODE"] ++ valueCols ++ (if a.label then ["CIPNAME"] else [])

/-- `IPEDSHandler.clean` applied to an aggregated frame: `replace` decodes
the classification-code column through the metadata dictionary (the other
columns of this frame are numeric and untouched by the string-keyed
dictionary); `rename` retitles the columns through the `C2019_A` rename
map. -/
def cleanAgg (db : IpedsDB) (replaceV renameC : Bool) (f : AggFrame) :
    AggFrame :=
  let f1 :=
    if replaceV then
      { f with rows := f.rows.map fun r =>
          { r with cipcode :=
              ((((db.metadata.lookup "CIPCODE").getD []).lookup
                r.cipcode).getD r.cipcode) } }
    else f
  if renameC then
    { f1 with cols := f1.cols.map fun c => ((db.varnames.lookup c).getD c) }
  else f1

/-- The shared aggregation prefix of `awards`: run `school_query`
(an absent result makes the immediate `.drop('UNITID', axis=1)` raise an
`AttributeError`), drop the institution id, group and sum, and add the
optional label column. -/
def awardsCore (db : IpedsDB) (cl : CipLevel) (a : SQArgs) :
    Except PyErr AggFrame :=
  match school_query db cl a with
  | .error e => .error e
  | .ok (none, _) => .error (.attributeError "drop")
  | .ok (some t, _) =>
    let valueCols := (breakdownCols a.how).getD []
    match addLabel db a.label (groupAgg t valueCols.length) with
    | .error e => .error e
    | .ok rows2 => .ok { cols := aggCols a valueCols, rows := rows2 }

/-- The `cip_level` if/elif chain shared by `awards` and `programs`:
the granularity filter applied to the aggregated frame, `none` for the
"not a valid option" print-and-return-None branch. -/
def levelFilter (cl : CipLevel) (f : AggFrame) : Option AggFrame :=
  match cl with
  | .i 6 => some { f with rows := f.rows.filter (fun r => r.cipcode.length == 7) }
  | .i 4 => some { f with rows := f.rows.filter (fun r => r.cipcode.length == 5) }
  | .i 2 => some { f with rows := f.rows.filter (fun r => r.cipcode.length == 2) }
  | .s "all" => some f
  | .s "total" => some { f with rows := f.rows.filter (fun r => r.cipcode == "99") }
  | _ => none

/-- `IPEDSHandler.awards`: aggregate, filter by granularity, and return
through `self.clean(..., 'C2019_A', rename=rename)` — note the source never
passes `replace=True` here, so only the column retitling can happen. -/
def awards (db : IpedsDB) (cl : CipLevel) (a : SQArgs) :
    Except PyErr (Option AggFrame) :=
  match awardsCore db cl a with
  | .error e => .error e
  | .ok base =>
    match levelFilter cl base with
    | some g => .ok (some (cleanAgg db false a.rename g))
    | none => .ok none

/-- The aggregation prefix of `programs`: `school_query` with the source's
default `how='total'` and `majornum=1` (programs passes neither), group and
count institution rows, add the optional label. An absent `school_query`
result makes the immediate `groupby` raise. -/
def programsCore (db : IpedsDB) (cl : CipLevel) (a : SQArgs) :
    Except PyErr AggFrame :=
  match school_query db cl { a with how := "total", majornum := 1 } with
  | .error e => .error e
  | .ok (none, _) => .error (.attributeError "groupby")
  | .ok (some t, _) =>
    match addLabel db a.label (groupCount t) with
    | .error e => .error e
    | .ok rows2 =>
      .ok { cols := aggCols { a with how := "total" } ["PROG_COUNT"],
            rows := rows2 }

/-- `IPEDSHandler.programs`: same granularity chain as `awards`, but the
result is returned directly, with no final `clean`. -/
def programs (db : IpedsDB) (cl : CipLevel) (a : SQArgs) :
    Except PyErr (Option AggFrame) :=
  match programsCore db cl a with
  | .error e => .error e
  | .ok base =>
    match levelFilter cl base with
    | some g => .ok (some g)
    | none => .ok none

/-- The value `schools` returns: a scalar row count, a per-geography count
table, or the absent result of its catch-and-print branch. -/
inductive SchoolsResult where
  | count (n : Nat)
  | frame (rows : List (String × Nat))
  | nothing
deriving DecidableEq, Repr

/-- Ordered duplicate-free insertion of a plain string key. -/
def insertStr (k : String) : List String → List String
  | [] => [k]
  | l :: t =>
    match cmpStr k l with
    | .lt => k :: l :: t
    | .eq => l :: t
    | .gt => l :: insertStr k t

/-- `IPEDSHandler.schools`: `school_query` with `cip_level='total'` and all
remaining options at their defaults. With no `keep_geography` the scalar
`schools['UNITID'].size` — the number of rows of the school-level table — is
returned, and the `TypeError` raised when that table is absent is caught by
the surrounding `try` (yielding `nothing`). With `keep_geography` set the
rows are counted per geography value; an absent table then raises out of the
method (`groupby` on `None`). -/
def schools (db : IpedsDB) (state_fips county_fips zipcode : GeoFilter)
    (unitid : List Nat) (keep_geography : Option String)
    (clean_geography : Bool) : Except PyErr SchoolsResult :=
  match school_query db (.s "total")
      { state_fips := state_fips, county_fips := county_fips,
        zipcode := zipcode, cipcode := [], majornum := 1, unitid := unitid,
        how := "total", rename := true, label := false,
        keep_geography := keep_geography,
        clean_geography := clean_geography } with
  | .error e => .error e
  | .ok (res, _) =>
    match keep_geography with
    | none =>
      match res with
      | some t => .ok (.count t.length)
      | none => .ok .nothing
    | some _ =>
      match res with
      | none => .error (.attributeError "groupby")
      | some t =>
        let keys := (t.map (fun r => r.geo.getD "")).foldl
          (fun acc k => insertStr k acc) []
        .ok (.frame (keys.map fun k =>
          (k, (t.filter (fun r => r.geo.getD "" == k)).length)))

/-- The number of distinct institution ids actually present in the award
relation under a major-number and institution-id filter — what the `schools`
docstring ("count of schools in region") describes. -/
def distinctInstitutionCount (db : IpedsDB) (majornum : Nat)
    (ids : List Nat) : Nat :=
  ((db.c2019a.filter fun r =>
      r.majornum == majornum && (ids.isEmpty || ids.contains r.unitid)).map
    (·.unitid)).dedup.length

/-! ## The normalized-code pattern of the spec -/

/-- Tail acceptance for the pattern `\d\x7b2\x7d(\.\d+)?`: after the two
leading digits either nothing, or a dot followed by at least one digit. -/
def cipTail : List Char → Bool
  | [] => true
  | c :: ds => (c == '.') && !ds.isEmpty && ds.all Char.isDigit

/-- Full-match test of the pattern `\d\x7b2\x7d(\.\d+)?` on a character
list. -/
def cipPatternL : List Char → Bool
  | c1 :: c2 :: rest => c1.isDigit && c2.isDigit && cipTail rest
  | _ => false

/-- Full-match test of the pattern `\d\x7b2\x7d(\.\d+)?` on a string. -/
def cipPattern (s : String) : Bool :=
  cipPatternL s.data

/-! ## IPEDSHandler.clean on a generic dataframe

`clean` takes an arbitrary dataframe; it is modelled column-wise: a
dataframe is a list of (column name, cell values) pairs, `metadata` is the
decode dictionary keyed by raw variable name, and `varnames` the per-table
rename map. -/

/-- A generic dataframe as `clean` sees it: named columns of cell values. -/
abbrev StrFrame := List (String × List String)

/-- The effect of `df.replace(self.metadata)` on one column: when the
column name is a key of the metadata dictionary, each cell equal to a code
is replaced (in one simultaneous pass) by its label. -/
def replaceCol (md : List (String × List (String × String)))
    (col : String × List String) : String × List String :=
  match md.lookup col.1 with
  | some m => (col.1, col.2.map fun v => ((m.lookup v).getD v))
  | none => col

/-- `df.replace(self.metadata)` over the whole frame. -/
def replaceFrame (md : List (String × List (String × String)))
    (f : StrFrame) : StrFrame :=
  f.map (replaceCol md)

/-- The effect of `df.rename(columns=self.varnames[name])` on one column:
retitle it when it appears in the rename map. -/
def renameCol (vn : List (String × String)) (col : String × List String) :
    String × List String :=
  (((vn.lookup col.1).getD col.1), col.2)

/-- `df.rename(columns=self.varnames[name])` over the whole frame. -/
def renameFrame (vn : List (String × String)) (f : StrFrame) : StrFrame :=
  f.map (renameCol vn)

/-- `IPEDSHandler.clean`: value decode first (when `replace` is set), then
column retitling (when `rename` is set). -/
def clean (md : List (String × List (String × String)))
    (vn : List (String × String)) (f : StrFrame)
    (replaceV renameC : Bool) : StrFrame :=
  let f1 := if replaceV then replaceFrame md f else f
  if renameC then renameFrame vn f1 else f1

/-! ## ONETHandler -/

/-- The mutable bookkeeping of `ONETHandler`: current release name, parsed
version number, current extraction path, and the archives fetched and
extracted so far (the filesystem effect of `download_data`, abstracted). -/
structure ONETState where
  current : String
  version : ℚ
  current_path : String
  downloaded : List String
deriving DecidableEq, Repr

/-- The release-listing page, reduced to what `get_new_database` reads from
it: the version number parsed from the first heading and the text-archive
link. -/
structure ReleasePage where
  newVersion : ℚ
  textZipLink : String
deriving DecidableEq, Repr

/-- The method names defined on the `ONETHandler` class; attribute lookup of
anything else on an instance raises `AttributeError`. -/
def onetMethodNames : List String :=
  ["__init__", "download_data", "get_new_database", "get_table",
   "quant_view", "qual_view"]

/-- `ONETHandler.download_data`: fetch the archive at `link` and extract it
into the target directory (the filesystem effect is abstracted as appending
to `downloaded`). -/
def download_data (st : ONETState) (link : String) : ONETState :=
  { st with downloaded := st.downloaded ++ [link] }

/-- `ONETHandler.get_new_database`: parse the latest version from the
release page; when the local version is not older, print "database up to
date" and stop with the state unchanged. Otherwise the source invokes
`self.donwload_data(file)` — a misspelling of the method `download_data`
defined on the class — so attribute lookup raises `AttributeError` and
neither the download nor the bookkeeping update is reached. -/
def get_new_database (st : ONETState) (page : ReleasePage) :
    Except PyErr ONETState :=
  if st.version ≥ page.newVersion then .ok st
  else if onetMethodNames.contains "donwload_data" then
    .ok { download_data st page.textZipLink with
          version := page.newVersion, current_path := page.textZipLink }
  else .error (.attributeError "donwload_data")

/-! ## Rosetta -/

/-- A crosswalk ("rosetta stone") row restricted to the two key columns of a
`translate` call in which the `cip_2020` side is the designated list-encoded
taxonomy column: `none` cells model nulls, and the `cip_2020` cell carries
the member list its serialized literal parses to (`ast.literal_eval`). -/
structure CWRow where
  other : Option String
  cip_2020 : Option (List String)
deriving DecidableEq, Repr

/-- A row of the input data keyed by the non-list column, with one non-key
payload column. -/
structure DataRow where
  other : String
  payload : String
deriving DecidableEq, Repr

/-- A row of the merged output of `translate`. -/
structure OutRow where
  other : String
  payload : String
  cip_2020 : String
deriving DecidableEq, Repr

/-- `drop_duplicates` with pandas defaults: keep the first occurrence. -/
def dropDupAux [DecidableEq α] (seen : List α) : List α → List α
  | [] => []
  | a :: t =>
    if a ∈ seen then dropDupAux seen t
    else a :: dropDupAux (a :: seen) t

/-- `drop_duplicates` over a whole list of rows. -/
def dropDuplicates [DecidableEq α] (l : List α) : List α :=
  dropDupAux [] l

/-- `Rosetta.translate` for a call whose left key is the non-list column and
whose right key is `cip_2020` (the list-encoded taxonomy column), with the
default inner merge and no second dataset: restrict the crosswalk to
distinct (`drop_duplicates`) non-null (`dropna`) key pairs, explode each
remaining row into one `(other, member)` pair per parsed list member, and
inner-merge the result onto the data on the left key. -/
def translate (stone : List CWRow) (data : List DataRow) : List OutRow :=
  let temp := dropDuplicates stone
  let temp2 := temp.filterMap fun r =>
    match r.other, r.cip_2020 with
    | some o, some cs => some (o, cs)
    | _, _ => none
  let expanded := temp2.flatMap fun p => p.2.map fun c => (p.1, c)
  data.flatMap fun d =>
    expanded.filterMap fun p =>
      if p.1 = d.other then
        some { other := d.other, payload := d.payload, cip_2020 := p.2 }
      else none

/-! ## Spec-side definition used for the refinement comparison of C7 -/

/-- Modelled from the spec's words "Final decode/rename is applied via
MetadataStore before return": identical to `awards` except that the final
`clean` also performs the value decode (`replace`), as the sentence
describes. Compared against the source-faithful `awards`, whose final
`clean` call leaves `replace` at its `False` default. -/
def awardsSpecFinalClean (db : IpedsDB) (cl : CipLevel) (a : SQArgs) :
    Except PyErr (Option AggFrame) :=
  match awardsCore db cl a with
  | .error e => .error e
  | .ok base =>
    match levelFilter cl base with
    | some g => .ok (some (cleanAgg db true a.rename g))
    | none => .ok none

/-! ## Concrete instances used by the counterexamples and witnesses -/

/-- An IPEDS database with a single institution (in state FIPS 6) holding
first-major award rows under two classification codes. -/
def db1 : IpedsDB :=
  { c2019a := [⟨1, 1, "01.0101", [("CTOTALT", 10)]⟩,
               ⟨1, 1, "99", [("CTOTALT", 10)]⟩],
    hd2019 := [⟨1, 6, "CA", 6001, "Alameda", 94000⟩],
    metadata := [], varnames := [] }

/-- An IPEDS database whose award relation holds a single total (`"99"`)
row. -/
def db4 : IpedsDB :=
  { c2019a := [⟨1, 1, "99", [("CTOTALT", 5)]⟩], hd2019 := [],
    metadata := [], varnames := [] }

/-- An IPEDS database with award rows at every granularity level. -/
def db4w : IpedsDB :=
  { c2019a := [⟨1, 1, "01.0101", [("CTOTALT", 1)]⟩,
               ⟨1, 1, "01.01", [("CTOTALT", 2)]⟩,
               ⟨1, 1, "01", [("CTOTALT", 3)]⟩,
               ⟨1, 1, "99", [("CTOTALT", 6)]⟩],
    hd2019 := [], metadata := [], varnames := [] }

/-- The granularity-6 result of `awards` on `db4w`. -/
def fr6w : AggFrame :=
  ⟨["CIPCODE", "CTOTALT"], [⟨none, "01.0101", none, [1]⟩]⟩

/-- The granularity-4 result of `awards` on `db4w`. -/
def fr4w : AggFrame :=
  ⟨["CIPCODE", "CTOTALT"], [⟨none, "01.01", none, [2]⟩]⟩

/-- The granularity-2 result of `awards` on `db4w`. -/
def fr2w : AggFrame :=
  ⟨["CIPCODE", "CTOTALT"],
   [⟨none, "01", none, [3]⟩, ⟨none, "99", none, [6]⟩]⟩

/-- The `total` result of `awards` on `db4w`. -/
def frTw : AggFrame :=
  ⟨["CIPCODE", "CTOTALT"], [⟨none, "99", none, [6]⟩]⟩

/-- The `all` result of `awards` on `db4w`. -/
def frAw : AggFrame :=
  ⟨["CIPCODE", "CTOTALT"],
   [⟨none, "01", none, [3]⟩, ⟨none, "01.01", none, [2]⟩,
    ⟨none, "01.0101", none, [1]⟩, ⟨none, "99", none, [6]⟩]⟩

/-- An IPEDS database whose metadata decodes the total code `"99"`. -/
def db7 : IpedsDB :=
  { c2019a := [⟨1, 1, "99", [("CTOTALT", 4)]⟩], hd2019 := [],
    metadata := [("CIPCODE", [("99", "Grand total")])], varnames := [] }

/-- An IPEDS database with a single award row under code `"01.1"`. -/
def db8 : IpedsDB :=
  { c2019a := [⟨1, 1, "01.1", [("CTOTALT", 3)]⟩], hd2019 := [],
    metadata := [], varnames := [] }

/-- A metadata dictionary whose label set overlaps its code set
(`1 -> 2 -> 3`). -/
def mdChain : List (String × List (String × String)) :=
  [("A", [("1", "2"), ("2", "3")])]

/-- A metadata dictionary whose labels do not collide with codes. -/
def mdW : List (String × List (String × String)) := [("A", [("1", "2")])]

/-- A rename map taking the raw name `A` to the title `Alpha`. -/
def vnW : List (String × String) := [("A", "Alpha")]

/-- A one-column dataframe under the raw name `A`. -/
def fW : StrFrame := [("A", ["1"])]

/-- The crosswalk of the C5 scenario: the claim's row, a duplicate of it,
and a row with a null key that `dropna` removes. -/
def cw5 : List CWRow :=
  [⟨some "X", some ["11.01", "11.02"]⟩,
   ⟨some "X", some ["11.01", "11.02"]⟩,
   ⟨none, some ["22.01"]⟩]

/-! ## Theorems -/

/-- C10: `get_unitid` with all three geography filters absent returns the
empty result immediately, issuing no query against the backing store. -/
theorem get_unitid_all_absent_empty_no_query :
    ∀ (db : IpedsDB) (cg : Bool),
      get_unitid db .absent .absent .absent cg = (.emptyTuple, 0) := by
  intro db cg
  simp [get_unitid]

/-- C1: with `keepGeography` unset, `schools` returns the number of award
rows across all classification codes, not the number of distinct resolved
institution ids: on `db1` the single resolved institution (id 1) has
first-major award rows under the codes `01.0101` and `99`, so the distinct
count is 1, yet `schools` returns 2 — `school_query` ignores the
`cip_level='total'` it is passed and the scalar branch takes the raw row
count, contradicting the docstring "count of schools in region". -/
theorem schools_counts_award_rows_not_distinct_institutions :
    schools db1 (.scalar 6) .absent .absent [] none false
        = .ok (.count 2)
      ∧ distinctInstitutionCount db1 1 [1] = 1 := by
  exact ⟨rfl, rfl⟩

/-- C6: when the remote version is not newer, `get_new_database` stops with
the local state unchanged (first conjunct); when it is newer, the update
path raises `AttributeError` at the misspelled `self.donwload_data(file)`
call instead of downloading and updating the bookkeeping (second conjunct:
local version 25, remote version 26). -/
theorem get_new_database_update_check :
    (∀ (st : ONETState) (page : ReleasePage),
        page.newVersion ≤ st.version → get_new_database st page = .ok st)
      ∧ get_new_database ⟨"db_25_0_text", 25, "p", []⟩ ⟨26, "link"⟩
          = .error (.attributeError "donwload_data") := by
  constructor
  · intro st page h
    unfold get_new_database
    rw [if_pos h]
  · unfold get_new_database
    rw [if_neg (by norm_num), if_neg (by decide)]

/-- Witness for C6: an up-to-date state (local and remote both 25) is
returned unchanged. -/
theorem get_new_database_update_check_witness :
    get_new_database ⟨"db_25_0_text", 25, "p", []⟩ ⟨25, "l"⟩
      = .ok ⟨"db_25_0_text", 25, "p", []⟩ :=
  get_new_database_update_check.1 _ _ (le_refl 25)

/-- C2 counterexample: an invalid `how` passed through `awards` does not
yield a reported message and an absent result — `school_query` returns
`None`, and `awards` immediately calls `.drop('UNITID', axis=1)` on it, so
an `AttributeError` propagates to the caller. -/
theorem awards_invalid_how_raises :
    awards db4w (.i 6) { defaultSQArgs with how := "bogus" }
      = .error (.attributeError "drop") := rfl

/-- C4 counterexample: on a database whose award relation holds a total
(`"99"`) row, the `cip_level=2` selection and the `cip_level='total'`
selection of `awards` both contain that row — the code `"99"` has string
length 2 — so the four granularity selections are not pairwise disjoint. -/
theorem granularity_total_overlaps_two_digit :
    awards db4 (.i 2) defaultSQArgs
        = .ok (some ⟨["CIPCODE", "CTOTALT"], [⟨none, "99", none, [5]⟩]⟩)
      ∧ awards db4 (.s "total") defaultSQArgs
          = .ok (some ⟨["CIPCODE", "CTOTALT"], [⟨none, "99", none, [5]⟩]⟩)
      ∧ (⟨none, "99", none, [5]⟩ : AggRow)
          ∈ (⟨["CIPCODE", "CTOTALT"], [⟨none, "99", none, [5]⟩]⟩
              : AggFrame).rows := by
  exact ⟨rfl, rfl, by decide⟩

/-- C7 counterexample: `awards` does not apply the final value decode. On
`db7` the metadata decodes the total code `"99"` to `"Grand total"`, yet the
returned row still carries `"99"`; the spec-modelled variant that does apply
the decode in its final clean returns the label instead. -/
theorem awards_final_decode_not_applied :
    awards db7 (.s "total") defaultSQArgs
        = .ok (some ⟨["CIPCODE", "CTOTALT"], [⟨none, "99", none, [4]⟩]⟩)
      ∧ awardsSpecFinalClean db7 (.s "total") defaultSQArgs
          = .ok (some ⟨["CIPCODE", "CTOTALT"],
                       [⟨none, "Grand total", none, [4]⟩]⟩)
      ∧ (⟨none, "99", none, [4]⟩ : AggRow)
          ≠ ⟨none, "Grand total", none, [4]⟩ := by
  exact ⟨rfl, rfl, by decide⟩

/-- C8 counterexample: after a `school_query` call with the explicit
cipcode list `["1.1"]`, the caller-supplied list holds the normalized
`["01.1"]` — the normalization loop assigns back into the list, mutating
the caller-visible entity in place. -/
theorem school_query_mutates_cipcode_list :
    school_query db8 (.i 6) { defaultSQArgs with cipcode := ["1.1"] }
        = .ok (some [⟨1, "01.1", [3], none⟩], ["01.1"])
      ∧ (["01.1"] : List String) ≠ ["1.1"] := by
  exact ⟨rfl, by decide⟩

/-- C9 counterexample: with `replace` enabled and `rename` disabled,
applying `clean` twice is not the same as applying it once — a decoded
label that is itself a code of the same column is re-replaced on the second
pass (`1 -> 2` then `2 -> 3` under `mdChain`). -/
theorem clean_replace_only_not_idempotent :
    clean mdChain [] (clean mdChain [] [("A", ["1"])] true false) true false
      ≠ clean mdChain [] [("A", ["1"])] true false := by
  decide

/-- C5: translating any data table against the crosswalk `cw5` — the
claim's row `(X, [11.01, 11.02])`, a duplicate of it removed by the
distinct step, and a null-keyed row removed by `dropna` — produces, for
each input row keyed `X`, exactly two output rows, one per expanded list
member, both carrying the input row's non-key column, and nothing for any
other key. -/
theorem translate_list_expansion :
    ∀ (ds : List DataRow),
      translate cw5 ds
        = ds.flatMap fun d =>
            if d.other = "X" then
              [⟨d.other, d.payload, "11.01"⟩, ⟨d.other, d.payload, "11.02"⟩]
            else [] := by
  intro ds
  have h : (fun d : DataRow =>
        ([("X", "11.01"), ("X", "11.02")]
            : List (String × String)).filterMap fun p =>
          if p.1 = d.other then
            some (⟨d.other, d.payload, p.2⟩ : OutRow)
          else none)
      = fun d : DataRow =>
          if d.other = "X" then
            [⟨d.other, d.payload, "11.01"⟩, ⟨d.other, d.payload, "11.02"⟩]
          else [] := by
    funext d
    by_cases hd : d.other = "X"
    · simp [List.filterMap, hd]
    · have h1 : ¬ ("X" = d.other) := fun he => hd he.symm
      simp [List.filterMap, h1, hd]
  calc
    translate cw5 ds
        = ds.flatMap fun d =>
            ([("X", "11.01"), ("X", "11.02")]
                : List (String × String)).filterMap fun p =>
              if p.1 = d.other then
                some (⟨d.other, d.payload, p.2⟩ : OutRow)
              else none := rfl
    _ = _ := by rw [h]

/-- `df.replace` leaves a frame unchanged when no column name is a metadata
key. -/
theorem replaceFrame_eq_self
    (md : List (String × List (String × String))) (f : StrFrame)
    (h : ∀ p ∈ f, md.lookup p.1 = none) : replaceFrame md f = f := by
  induction f with
  | nil => rfl
  | cons p t ih =>
    have hp : md.lookup p.1 = none := h p (by simp)
    have ht := ih fun q hq => h q (by simp [hq])
    simp only [replaceFrame, List.map_cons] at *
    rw [ht]
    simp [replaceCol, hp]

/-- `df.rename` leaves a frame unchanged when no column name is a rename
key. -/
theorem renameFrame_eq_self (vn : List (String × String)) (f : StrFrame)
    (h : ∀ p ∈ f, vn.lookup p.1 = none) : renameFrame vn f = f := by
  induction f with
  | nil => rfl
  | cons p t ih =>
    have hp : vn.lookup p.1 = none := h p (by simp)
    have ht := ih fun q hq => h q (by simp [hq])
    simp only [renameFrame, List.map_cons] at *
    rw [ht]
    simp [renameCol, hp]

/-- C9 as amended: `clean` is idempotent when `rename` is enabled, provided
no column name of the once-cleaned frame is still a raw variable name in
the decode or rename tables (which is how renamed columns stop matching raw
variable names); the unconditional form fails for replace-without-rename,
see the counterexample. -/
theorem clean_idempotent_with_rename :
    ∀ (md : List (String × List (String × String)))
      (vn : List (String × String)) (f : StrFrame) (rep : Bool),
      (∀ p ∈ clean md vn f rep true,
          md.lookup p.1 = none ∧ vn.lookup p.1 = none) →
      clean md vn (clean md vn f rep true) rep true
        = clean md vn f rep true := by
  intro md vn f rep h
  have h1 : replaceFrame md (clean md vn f rep true) = clean md vn f rep true :=
    replaceFrame_eq_self _ _ fun p hp => (h p hp).1
  have h2 : renameFrame vn (clean md vn f rep true) = clean md vn f rep true :=
    renameFrame_eq_self _ _ fun p hp => (h p hp).2
  cases rep with
  | false =>
    have hG : clean md vn f false true = renameFrame vn f := rfl
    rw [hG] at h2
    show renameFrame vn (renameFrame vn f) = renameFrame vn f
    exact h2
  | true =>
    have hG : clean md vn f true true = renameFrame vn (replaceFrame md f) :=
      rfl
    rw [hG] at h1 h2
    show renameFrame vn (replaceFrame md (renameFrame vn (replaceFrame md f)))
        = renameFrame vn (replaceFrame md f)
    rw [h1, h2]

/-- Witness for C9: a concrete frame whose renamed title collides with no
raw variable name; two applications of `clean` agree with one. -/
theorem clean_idempotent_with_rename_witness :
    clean mdW vnW (clean mdW vnW fW true true) true true
      = clean mdW vnW fW true true :=
  clean_idempotent_with_rename mdW vnW fW true (by decide)

/-- The zero-padded integer part of a classification code is exactly two
digits. -/
theorem fmt02_len_digits :
    ∀ n, n < 100 →
      ((fmt02 n).data.length = 2 ∧ (fmt02 n).data.all Char.isDigit = true) := by
  decide

/-- The pattern accepts two digits followed by an accepted tail. -/
theorem cipPatternL_two (c1 c2 : Char) (rest : List Char)
    (h1 : c1.isDigit = true) (h2 : c2.isDigit = true)
    (hr : cipTail rest = true) : cipPatternL (c1 :: c2 :: rest) = true := by
  simp [cipPatternL, h1, h2, hr]

/-- C3: a classification-code input whose rendered form splits into a
numeric integer part below 100 and (optionally) a fragment of digits after
the first dot is normalized to the zero-padded integer part with the
fragment reattached after a literal dot, and the result matches
`\d\x7b2\x7d(\.\d+)?`; and the rows kept by the `cipcode` filter of
`school_query` all carry codes from the normalized set. -/
theorem cip_normalization_pattern :
    (∀ (s : String) (front : List Char) (rest : List (List Char)) (n : Nat),
        splitDot s.data = front :: rest →
        pyInt front = some n →
        n < 100 →
        (rest = [] →
            normalizeCip s = .ok (String.mk ((fmt02 n).data))
              ∧ cipPattern (String.mk ((fmt02 n).data)) = true)
          ∧ (∀ (b : List Char) (rest2 : List (List Char)),
              rest = b :: rest2 → b ≠ [] → b.all Char.isDigit = true →
              normalizeCip s = .ok (String.mk ((fmt02 n).data ++ '.' :: b))
                ∧ cipPattern (String.mk ((fmt02 n).data ++ '.' :: b)) = true))
      ∧ (∀ (cip : List String) (awd out : List SQRow) (cs : List String),
          cip ≠ [] → applyCipFilter cip awd = .ok (out, cs) →
          ∀ r ∈ out, r.cipcode ∈ cs) := by
  constructor
  · intro s front rest n hsplit hpy hn
    obtain ⟨hlen, hdig⟩ := fmt02_len_digits n hn
    obtain ⟨c1, c2, hed⟩ := List.length_eq_two.mp hlen
    rw [hed] at hdig
    simp only [List.all_cons, List.all_nil, Bool.and_true,
      Bool.and_eq_true] at hdig
    obtain ⟨hc1, hc2⟩ := hdig
    constructor
    · intro hrest
      subst hrest
      constructor
      · simp only [normalizeCip, hsplit, hpy]
        rw [List.append_nil]
      · show cipPatternL (fmt02 n).data = true
        rw [hed]
        exact cipPatternL_two c1 c2 [] hc1 hc2 rfl
    · intro b rest2 hrest hbne hbd
      subst hrest
      have htail : cipTail ('.' :: b) = true := by
        cases b with
        | nil => exact absurd rfl hbne
        | cons x xs =>
          simp only [cipTail, List.all_eq_true] at *
          simpa using fun c hc => hbd c hc
      constructor
      · simp only [normalizeCip, hsplit, hpy]
      · show cipPatternL ((fmt02 n).data ++ '.' :: b) = true
        rw [hed]
        exact cipPatternL_two c1 c2 ('.' :: b) hc1 hc2 htail
  · intro cip awd out cs hne happ r hr
    have hF : cip.isEmpty = false := by
      cases cip with
      | nil => exact absurd rfl hne
      | cons x xs => rfl
    unfold applyCipFilter at happ
    rw [hF] at happ
    simp only [Bool.false_eq_true, if_false] at happ
    cases hnl : normList cip with
    | error e =>
      rw [hnl] at happ
      exact absurd happ (by simp)
    | ok normed =>
      rw [hnl] at happ
      simp only [Except.ok.injEq, Prod.mk.injEq] at happ
      obtain ⟨hout, hcs⟩ := happ
      subst hout
      subst hcs
      have hmem := List.mem_filter.mp hr
      simpa using hmem.2

/-- Witness for C3: the spec's own example input `1.1` normalizes to
`01.1`, which matches the pattern. -/
theorem cip_normalization_pattern_witness :
    normalizeCip "1.1" = .ok (String.mk ((fmt02 1).data ++ '.' :: ['1']))
      ∧ cipPattern (String.mk ((fmt02 1).data ++ '.' :: ['1'])) = true :=
  (cip_normalization_pattern.1 "1.1" ['1'] [['1']] 1 rfl rfl (by decide)).2
    ['1'] [] rfl (by decide) (by decide)

/-- C2 as amended: error conditions arising inside `school_query` and the
scalar branch of `schools` are caught and reported with an absent result —
an invalid `how` makes `school_query` itself return `None` with the input
list untouched, and `schools` catches the `TypeError` on an absent
school-level table (here: a geography filter that matches no institution) —
but consumers of an absent intermediate result are not covered, see the
counterexample. -/
theorem errors_reported_as_absent_amended :
    (∀ (db : IpedsDB) (cl : CipLevel) (a : SQArgs),
        a.how ≠ "total" → a.how ≠ "race" → a.how ≠ "sex" →
        a.how ≠ "race_sex" →
        school_query db cl a = .ok (none, a.cipcode))
      ∧ (∀ (db : IpedsDB) (u : List Nat) (cg : Bool),
          db.hd2019 = [] →
          schools db (.scalar 1) .absent .absent u none cg = .ok .nothing) := by
  constructor
  · intro db cl a h1 h2 h3 h4
    have hb : breakdownCols a.how = none := by
      simp [breakdownCols, h1, h2, h3, h4]
    cases hrg : resolveGeo db a with
    | none => simp [school_query, hrg]
    | some pr => simp [school_query, hrg, hb]
  · intro db u cg h
    simp [schools, school_query, resolveGeo, get_unitid, h]

/-- Witness for C2: the two amended conjuncts at concrete inputs. -/
theorem errors_reported_as_absent_amended_witness :
    school_query db4w (.i 6) { defaultSQArgs with how := "bogus" }
        = .ok (none, [])
      ∧ schools db4 (.scalar 1) .absent .absent [] none false
          = .ok .nothing :=
  ⟨errors_reported_as_absent_amended.1 db4w (.i 6) _
      (by decide) (by decide) (by decide) (by decide),
    errors_reported_as_absent_amended.2 db4 [] false rfl⟩

/-- C8 as amended: `school_query` normalizes the caller-supplied `cipcode`
list in place — whenever it returns a table, the final state of that list
is either the untouched empty default or the result of the normalization
loop, entry by entry. -/
theorem school_query_cipcode_list_final_state :
    ∀ (db : IpedsDB) (cl : CipLevel) (a : SQArgs) (t : List SQRow)
      (cs : List String),
      school_query db cl a = .ok (some t, cs) →
      (a.cipcode = [] ∧ cs = a.cipcode) ∨ normList a.cipcode = .ok cs := by
  intro db cl a t cs h
  unfold school_query at h
  cases hrg : resolveGeo db a with
  | none =>
    rw [hrg] at h
    simp at h
  | some pr =>
    obtain ⟨ids, geoSrc⟩ := pr
    rw [hrg] at h
    dsimp only at h
    cases hbc : breakdownCols a.how with
    | none =>
      rw [hbc] at h
      simp at h
    | some vcols =>
      rw [hbc] at h
      dsimp only at h
      cases hcf : applyCipFilter a.cipcode
          (selectAwards db a.majornum ids vcols) with
      | error e =>
        rw [hcf] at h
        simp at h
      | ok pr2 =>
        obtain ⟨awd2, cips⟩ := pr2
        rw [hcf] at h
        dsimp only at h
        have hcs : cips = cs := by
          cases hkg : a.keep_geography with
          | none =>
            rw [hkg] at h
            simp only [Except.ok.injEq, Prod.mk.injEq] at h
            exact h.2
          | some kg =>
            rw [hkg] at h
            cases geoSrc with
            | none => simp at h
            | some utd =>
              simp only [Except.ok.injEq, Prod.mk.injEq] at h
              exact h.2
        subst hcs
        unfold applyCipFilter at hcf
        by_cases hcip : a.cipcode.isEmpty = true
        · rw [if_pos hcip] at hcf
          simp only [Except.ok.injEq, Prod.mk.injEq] at hcf
          exact Or.inl ⟨List.isEmpty_iff.mp hcip, hcf.2.symm⟩
        · rw [if_neg hcip] at hcf
          cases hnl : normList a.cipcode with
          | error e =>
            rw [hnl] at hcf
            simp at hcf
          | ok normed =>
            rw [hnl] at hcf
            simp only [Except.ok.injEq, Prod.mk.injEq] at hcf
            exact Or.inr (by rw [hcf.2])

/-- Witness for C8: the final list state of the counterexample call is the
normalization of its input. -/
theorem school_query_cipcode_list_final_state_witness :
    ((["1.1"] : List String) = [] ∧ (["01.1"] : List String) = ["1.1"])
      ∨ normList ["1.1"] = .ok ["01.1"] :=
  school_query_cipcode_list_final_state db8 (.i 6)
    { defaultSQArgs with cipcode := ["1.1"] }
    [⟨1, "01.1", [3], none⟩] ["01.1"] rfl

/-- `school_query` never reads its `cip_level` parameter, so the shared
aggregation prefix of `awards` is the same at every level. -/
theorem awardsCore_cl_irrel (db : IpedsDB) (cl cl2 : CipLevel) (a : SQArgs) :
    awardsCore db cl a = awardsCore db cl2 a := rfl

/-- The final `clean` of `awards` is called with `replace` at its `False`
default, so it leaves the rows untouched. -/
theorem cleanAgg_false_rows (db : IpedsDB) (ren : Bool) (f : AggFrame) :
    (cleanAgg db false ren f).rows = f.rows := by
  cases ren <;> simp [cleanAgg]

/-- The final `clean` of `awards` retitles the columns exactly when
`rename` is set. -/
theorem cleanAgg_false_cols (db : IpedsDB) (ren : Bool) (f : AggFrame) :
    (cleanAgg db false ren f).cols
      = (if ren then f.cols.map (fun c => ((db.varnames.lookup c).getD c))
          else f.cols) := by
  cases ren <;> simp [cleanAgg]

/-- C4 as amended: for any database and arguments on which all five
granularity levels of `awards` succeed, every level-6 row has code length
7, level-4 length 5, level-2 length 2, and every `total` row has code
exactly `"99"`; all four selections are subsets of the `all` result; the
6-, 4-digit and `total` selections are pairwise disjoint, and so are 6, 4
and 2 — but the `total` selection is contained in the 2-digit selection
(`"99"` has length 2), which is what the counterexample exhibits. -/
theorem granularity_partition_amended :
    ∀ (db : IpedsDB) (a : SQArgs) (f6 f4 f2 ft fa : AggFrame),
      awards db (.i 6) a = .ok (some f6) →
      awards db (.i 4) a = .ok (some f4) →
      awards db (.i 2) a = .ok (some f2) →
      awards db (.s "total") a = .ok (some ft) →
      awards db (.s "all") a = .ok (some fa) →
      ((∀ r ∈ f6.rows, r.cipcode.length = 7)
        ∧ (∀ r ∈ f4.rows, r.cipcode.length = 5)
        ∧ (∀ r ∈ f2.rows, r.cipcode.length = 2)
        ∧ (∀ r ∈ ft.rows, r.cipcode = "99")
        ∧ (∀ r ∈ f6.rows, r ∈ fa.rows) ∧ (∀ r ∈ f4.rows, r ∈ fa.rows)
        ∧ (∀ r ∈ f2.rows, r ∈ fa.rows) ∧ (∀ r ∈ ft.rows, r ∈ fa.rows)
        ∧ (∀ r ∈ f6.rows, r ∉ f4.rows) ∧ (∀ r ∈ f6.rows, r ∉ f2.rows)
        ∧ (∀ r ∈ f6.rows, r ∉ ft.rows) ∧ (∀ r ∈ f4.rows, r ∉ f2.rows)
        ∧ (∀ r ∈ f4.rows, r ∉ ft.rows)
        ∧ (∀ r ∈ ft.rows, r ∈ f2.rows)) := by
  intro db a f6 f4 f2 ft fa h6 h4 h2 hT hA
  unfold awards at h6 h4 h2 hT hA
  rw [awardsCore_cl_irrel db (.i 6) (.s "all") a] at h6
  rw [awardsCore_cl_irrel db (.i 4) (.s "all") a] at h4
  rw [awardsCore_cl_irrel db (.i 2) (.s "all") a] at h2
  rw [awardsCore_cl_irrel db (.s "total") (.s "all") a] at hT
  cases hC : awardsCore db (.s "all") a with
  | error e =>
    rw [hC] at hA
    simp at hA
  | ok base =>
    rw [hC] at h6 h4 h2 hT hA
    simp only [levelFilter, Except.ok.injEq, Option.some.injEq]
      at h6 h4 h2 hT hA
    have e6 : f6.rows
        = base.rows.filter (fun r => r.cipcode.length == 7) := by
      rw [← h6, cleanAgg_false_rows]
    have e4 : f4.rows
        = base.rows.filter (fun r => r.cipcode.length == 5) := by
      rw [← h4, cleanAgg_false_rows]
    have e2 : f2.rows
        = base.rows.filter (fun r => r.cipcode.length == 2) := by
      rw [← h2, cleanAgg_false_rows]
    have eT : ft.rows = base.rows.filter (fun r => r.cipcode == "99") := by
      rw [← hT, cleanAgg_false_rows]
    have eA : fa.rows = base.rows := by
      rw [← hA, cleanAgg_false_rows]
    have l6 : ∀ r ∈ f6.rows, r.cipcode.length = 7 := by
      intro r hr
      rw [e6] at hr
      simpa using (List.mem_filter.mp hr).2
    have l4 : ∀ r ∈ f4.rows, r.cipcode.length = 5 := by
      intro r hr
      rw [e4] at hr
      simpa using (List.mem_filter.mp hr).2
    have l2 : ∀ r ∈ f2.rows, r.cipcode.length = 2 := by
      intro r hr
      rw [e2] at hr
      simpa using (List.mem_filter.mp hr).2
    have lT : ∀ r ∈ ft.rows, r.cipcode = "99" := by
      intro r hr
      rw [eT] at hr
      simpa using (List.mem_filter.mp hr).2
    refine ⟨l6, l4, l2, lT, ?_, ?_, ?_, ?_, ?_, ?_, ?_, ?_, ?_, ?_⟩
    · intro r hr
      rw [e6] at hr
      rw [eA]
      exact (List.mem_filter.mp hr).1
    · intro r hr
      rw [e4] at hr
      rw [eA]
      exact (List.mem_filter.mp hr).1
    · intro r hr
      rw [e2] at hr
      rw [eA]
      exact (List.mem_filter.mp hr).1
    · intro r hr
      rw [eT] at hr
      rw [eA]
      exact (List.mem_filter.mp hr).1
    · intro r hr hr2
      have := l6 r hr
      have := l4 r hr2
      omega
    · intro r hr hr2
      have := l6 r hr
      have := l2 r hr2
      omega
    · intro r hr hr2
      have := l6 r hr
      have h99 := lT r hr2
      rw [h99] at this
      exact absurd this (by decide)
    · intro r hr hr2
      have := l4 r hr
      have := l2 r hr2
      omega
    · intro r hr hr2
      have := l4 r hr
      have h99 := lT r hr2
      rw [h99] at this
      exact absurd this (by decide)
    · intro r hr
      have h99 := lT r hr
      rw [eT] at hr
      rw [e2]
      refine List.mem_filter.mpr ⟨(List.mem_filter.mp hr).1, ?_⟩
      rw [h99]
      decide

/-- Witness for C4: on `db4w` the five levels succeed; the level-6 rows
have code length 7 and the `total` rows sit inside the 2-digit selection. -/
theorem granularity_partition_amended_witness :
    (∀ r ∈ fr6w.rows, r.cipcode.length = 7)
      ∧ (∀ r ∈ frTw.rows, r ∈ fr2w.rows) := by
  have G := granularity_partition_amended db4w defaultSQArgs
    fr6w fr4w fr2w frTw frAw rfl rfl rfl rfl rfl
  exact ⟨G.1, G.2.2.2.2.2.2.2.2.2.2.2.2.2⟩

/-- C7 as amended: whenever `awards` returns a table, that table is the
granularity-filtered aggregate with its rows unchanged — the value decode
is never applied, because the final `clean` is invoked with `replace` left
at `False` — and its columns retitled exactly when `rename` is enabled;
whenever `programs` returns a table, it is the granularity-filtered
aggregate itself, with neither decode nor rename applied. -/
theorem awards_rename_only_programs_untouched :
    (∀ (db : IpedsDB) (cl : CipLevel) (a : SQArgs) (f : AggFrame),
        awards db cl a = .ok (some f) →
        ∃ base g, awardsCore db cl a = .ok base
          ∧ levelFilter cl base = some g
          ∧ f.rows = g.rows
          ∧ f.cols = (if a.rename then
              g.cols.map (fun c => ((db.varnames.lookup c).getD c))
              else g.cols))
      ∧ (∀ (db : IpedsDB) (cl : CipLevel) (a : SQArgs) (f : AggFrame),
          programs db cl a = .ok (some f) →
          ∃ pbase, programsCore db cl a = .ok pbase
            ∧ levelFilter cl pbase = some f) := by
  constructor
  · intro db cl a f h
    unfold awards at h
    cases hC : awardsCore db cl a with
    | error e =>
      rw [hC] at h
      simp at h
    | ok base =>
      rw [hC] at h
      dsimp only at h
      cases hL : levelFilter cl base with
      | none =>
        rw [hL] at h
        simp at h
      | some g =>
        rw [hL] at h
        simp only [Except.ok.injEq, Option.some.injEq] at h
        exact ⟨base, g, by simp [hC], by simp [hL], by rw [← h, cleanAgg_false_rows],
          by rw [← h, cleanAgg_false_cols]⟩
  · intro db cl a f h
    unfold programs at h
    cases hC : programsCore db cl a with
    | error e =>
      rw [hC] at h
      simp at h
    | ok base =>
      rw [hC] at h
      dsimp only at h
      cases hL : levelFilter cl base with
      | none =>
        rw [hL] at h
        simp at h
      | some g =>
        rw [hL] at h
        simp only [Except.ok.injEq, Option.some.injEq] at h
        exact ⟨base, by simp [hC], by simp [hL, h]⟩

/-- Witness for C7: both conjuncts at the concrete database `db7`, where
the `total` aggregate is returned undecoded by `awards` and verbatim by
`programs`. -/
theorem awards_rename_only_programs_untouched_witness :
    (∃ base g, awardsCore db7 (.s "total") defaultSQArgs = .ok base
        ∧ levelFilter (.s "total") base = some g
        ∧ (⟨["CIPCODE", "CTOTALT"], [⟨none, "99", none, [4]⟩]⟩
            : AggFrame).rows = g.rows
        ∧ (⟨["CIPCODE", "CTOTALT"], [⟨none, "99", none, [4]⟩]⟩
            : AggFrame).cols
          = (if defaultSQArgs.rename then
              g.cols.map (fun c => ((db7.varnames.lookup c).getD c))
              else g.cols))
      ∧ (∃ pbase, programsCore db7 (.s "total") defaultSQArgs = .ok pbase
          ∧ levelFilter (.s "total") pbase
            = some ⟨["CIPCODE", "PROG_COUNT"], [⟨none, "99", none, [1]⟩]⟩) :=
  ⟨awards_rename_only_programs_untouched.1 db7 (.s "total") defaultSQArgs
      ⟨["CIPCODE", "CTOTALT"], [⟨none, "99", none, [4]⟩]⟩ rfl,
    awards_rename_only_programs_untouched.2 db7 (.s "total") defaultSQArgs
      ⟨["CIPCODE", "PROG_COUNT"], [⟨none, "99", none, [1]⟩]⟩ rfl⟩

end EtlIO
